import Mathlib

/-!
Verification of the expense-tracker repository's recurrence scheduler,
filter/view layer and aggregation pipeline.

The definitions below are a shallow embedding of the JavaScript source:

* `src/components/RecurringTransactions.js` — recurring-template scheduler
  (`processRecurringTransactions`, `processNow`, `toggleActive`,
  `upcomingTransactions`);
* `src/components/ExpenseTracker.js` — entry filtering
  (`filteredTransactions`), totals (`filteredTotals`) and the store write
  path (`handleSaveTransaction`);
* `src/components/Reports.js` — `periodTotals`.

Dates are modelled at calendar-day granularity (the code stores every date
as a `yyyy-MM-dd` string and parses it with `parseISO` to local midnight).
Monetary amounts are modelled as rationals.
-/

/-- A calendar date, the meaning of a `yyyy-MM-dd` string in the source. -/
structure Date where
  year : Int
  month : Int
  day : Int
deriving DecidableEq, Repr

/-- Gregorian leap-year test, as implemented by the JavaScript `Date`. -/
def isLeap (y : Int) : Bool :=
  y % 4 == 0 && (y % 100 != 0 || y % 400 == 0)

/-- Number of days in a month of the Gregorian calendar. -/
def daysInMonth (y m : Int) : Int :=
  if m = 2 then (if isLeap y then 29 else 28)
  else if m = 4 || m = 6 || m = 9 || m = 11 then 30
  else 31

/-- `date-fns` `addMonths` with an integer amount: move `n` months forward,
clamping the day-of-month to the length of the target month (JavaScript
`Date.setMonth` semantics, which `addMonths` reproduces). -/
def addMonthsInt (d : Date) (n : Int) : Date :=
  let t := d.year * 12 + (d.month - 1) + n
  let y := Int.ediv t 12
  let m := Int.emod t 12 + 1
  { year := y, month := m, day := min d.day (daysInMonth y m) }

/-- Days since 1970-01-01 of a calendar date (Hinnant's civil-from-days
algorithm).  This is the day-granular value of the JavaScript timestamp of
the date at local midnight; the source compares dates by subtracting
timestamps (`new Date(a) - new Date(b)`) and with `isAfter`, which this
linearisation reproduces for day-granular dates. -/
def Date.days (dt : Date) : Int :=
  let y := if dt.month ≤ 2 then dt.year - 1 else dt.year
  let era := Int.ediv y 400
  let yoe := y - era * 400
  let mp := Int.emod (dt.month + 9) 12
  let doy := Int.ediv (153 * mp + 2) 5 + dt.day - 1
  let doe := yoe * 365 + Int.ediv yoe 4 - Int.ediv yoe 100 + doy
  era * 146097 + doe - 719468

/-- `date-fns` `toInteger`: a fractional amount is truncated toward zero
before being used by `addMonths` (`Int.div` truncates toward zero, which
on a reduced fraction is exactly JavaScript `Math.trunc`). -/
def ratTrunc (q : ℚ) : Int :=
  Int.tdiv q.num q.den

/-- `date-fns` `addMonths` as called by the source, with a possibly
fractional JavaScript number as amount: the amount is truncated toward
zero (`toInteger`), and a zero amount returns the date unchanged. -/
def addMonthsJS (d : Date) (q : ℚ) : Date :=
  let n := ratTrunc q
  if n = 0 then d else addMonthsInt d n

/-- A transaction record as emitted by the scheduler and stored by the
Entry Store (`type` is the string `"income"` or `"expense"` in the
source). -/
structure Transaction where
  id : Nat
  type : String
  description : String
  amount : ℚ
  category : String
  date : Date
  isRecurring : Bool
  recurringId : Option Nat
deriving DecidableEq, Repr

/-- The `frequency` field of a recurring template. -/
inductive Frequency where
  | weekly
  | monthly
  | quarterly
  | yearly
deriving DecidableEq, Repr

/-- A recurring-transaction template
(`RecurringTransactions.js` state element). -/
structure RecurringTemplate where
  id : Nat
  type : String
  description : String
  amount : ℚ
  category : String
  frequency : Frequency
  startDate : Date
  endDate : Option Date
  isActive : Bool
  lastProcessed : Option Date
  nextDue : Option Date
  createdAt : String
deriving DecidableEq, Repr

/-- The months argument the source passes to `addMonths`:
`recurring.frequency === 'monthly' ? 1 : weekly ? 0.25 : quarterly ? 3 : 12`
(lines 92-94 and 224-226 of `RecurringTransactions.js`). -/
def monthsArg (f : Frequency) : ℚ :=
  match f with
  | .monthly => 1
  | .weekly => ⟨1, 4, by decide, by decide⟩
  | .quarterly => 3
  | .yearly => 12

/-- The whole months `addMonths` actually advances by for each frequency
(`toInteger` truncates the `0.25` of weekly to `0`). -/
def truncMonths (f : Frequency) : Int :=
  match f with
  | .monthly => 1
  | .weekly => 0
  | .quarterly => 3
  | .yearly => 12

/-- `recurring.nextDue ? parseISO(recurring.nextDue) : parseISO(recurring.startDate)`. -/
def dueOf (r : RecurringTemplate) : Date :=
  (r.nextDue).getD r.startDate

/-- The due test of the scheduler pass:
`isAfter(today, nextDue) || format(today) === format(nextDue)`.
`today` is `new Date()` (current instant) and `nextDue` is a parsed
calendar date at midnight, so at day granularity the test is
"due day strictly before today, or the same calendar day". -/
def isDueOn (today due : Date) : Bool :=
  decide (due.days < today.days) || due == today

/-- The transaction built by the scheduled pass (lines 77-86).  The source
draws `id` as `Date.now() + Math.random()`; the model takes the fresh id
as a parameter, since nothing observes its value. -/
def mkAutoTransaction (fresh : Nat) (today : Date) (r : RecurringTemplate) :
    Transaction :=
  { id := fresh
    type := r.type
    description := r.description ++ " (Auto)"
    amount := r.amount
    category := r.category
    date := today
    isRecurring := true
    recurringId := some r.id }

/-- The transaction built by `processNow` (lines 210-219); description is
suffixed `(Manual)` instead of `(Auto)`. -/
def mkManualTransaction (fresh : Nat) (now : Date) (r : RecurringTemplate) :
    Transaction :=
  { id := fresh
    type := r.type
    description := r.description ++ " (Manual)"
    amount := r.amount
    category := r.category
    date := now
    isRecurring := true
    recurringId := some r.id }

/-- One template's treatment by a scheduler pass (the body of the
`forEach` at lines 70-104): inactive templates are skipped; a due template
emits one transaction and is rewritten with `lastProcessed = today` and
`nextDue = format(addMonths(nextDue, months))`. -/
def stepTemplate (fresh : Nat) (today : Date) (r : RecurringTemplate) :
    Option Transaction × RecurringTemplate :=
  if !r.isActive then (none, r)
  else
    let due := dueOf r
    if isDueOn today due then
      (some (mkAutoTransaction fresh today r),
       { r with
          lastProcessed := some today
          nextDue := some (addMonthsJS due (monthsArg r.frequency)) })
    else (none, r)

/-- One invocation of `processRecurringTransactions` (lines 64-109): the
`forEach` walks a copy of the collection, updating each index
independently, so the pass is the per-template step mapped over the list;
the emitted transactions are handed to `onAddTransaction` in list order. -/
def processPass (fresh : Nat) (today : Date) (ts : List RecurringTemplate) :
    List Transaction × List RecurringTemplate :=
  (ts.filterMap (fun r => (stepTemplate fresh today r).1),
   ts.map (fun r => (stepTemplate fresh today r).2))

/-- `processNow(id)` (lines 206-235): find the template by id — with no
`isActive` check — emit a `(Manual)` transaction for it, and set every
template with that id to `lastProcessed = now` and
`nextDue = addMonths(new Date(), months)`, anchored at `now`. -/
def processNow (fresh : Nat) (now : Date) (id : Nat)
    (ts : List RecurringTemplate) :
    Option Transaction × List RecurringTemplate :=
  match ts.find? (fun t => t.id == id) with
  | none => (none, ts)
  | some r =>
    let nd := addMonthsJS now (monthsArg r.frequency)
    (some (mkManualTransaction fresh now r),
     ts.map (fun t =>
       if t.id == id then
         { t with lastProcessed := some now, nextDue := some nd }
       else t))

/-- The per-element effect of `toggleActive` (lines 200-204). -/
def toggleOne (id : Nat) (t : RecurringTemplate) : RecurringTemplate :=
  if t.id == id then { t with isActive := !t.isActive } else t

/-- `toggleActive(id)`: map the per-element toggle over the collection. -/
def toggleActive (id : Nat) (ts : List RecurringTemplate) :
    List RecurringTemplate :=
  ts.map (fun t => if t.id == id then { t with isActive := !t.isActive } else t)

/-- `activeRecurring` (lines 248-250). -/
def activeRecurring (ts : List RecurringTemplate) : List RecurringTemplate :=
  ts.filter (fun t => t.isActive)

/-- Ascending `nextDue` order used by `upcomingTransactions`
(`new Date(a.nextDue) - new Date(b.nextDue)`); templates reaching the sort
all have `nextDue` present. -/
def nextDueKey (t : RecurringTemplate) : Int :=
  ((t.nextDue).getD ⟨1970, 1, 1⟩).days

def nextDueAsc (a b : RecurringTemplate) : Prop :=
  nextDueKey a ≤ nextDueKey b

instance : DecidableRel nextDueAsc :=
  fun a b => Int.decLe (nextDueKey a) (nextDueKey b)

instance : IsTotal RecurringTemplate nextDueAsc :=
  ⟨fun a b => le_total (nextDueKey a) (nextDueKey b)⟩

instance : IsTrans RecurringTemplate nextDueAsc :=
  ⟨fun _ _ _ h1 h2 => le_trans h1 h2⟩

/-- `upcomingTransactions` (lines 256-261): active templates having a
`nextDue`, sorted ascending by it, first five.  ECMAScript `sort` is
stable, so it is modelled by the stable `insertionSort`. -/
def upcomingTransactions (ts : List RecurringTemplate) :
    List RecurringTemplate :=
  (List.insertionSort nextDueAsc
    ((activeRecurring ts).filter (fun t => t.nextDue.isSome))).take 5

/-- `handleSaveTransaction` in `ExpenseTracker.js` (create path,
lines 213-221): on a successful API write the created record is prepended
to the store; on failure the exception is caught, an alert is shown and
the store is left unchanged.  `apiOk` is the outcome of the external
write. -/
def handleSaveTransaction (apiOk : Bool) (store : List Transaction)
    (tx : Transaction) : List Transaction :=
  if apiOk then tx :: store else store

/-- A scheduler tick together with the Entry Store it writes to: the pass
computes its emissions and template updates, and each emitted transaction
is handed to `handleSaveTransaction`.  The template updates in the source
are applied unconditionally, with no channel from the store back to the
scheduler, so the second component does not depend on `apiOk`. -/
def schedulerTick (apiOk : Bool) (fresh : Nat) (today : Date)
    (store : List Transaction) (ts : List RecurringTemplate) :
    List Transaction × List RecurringTemplate :=
  let p := processPass fresh today ts
  (p.1.foldl (fun s tx => handleSaveTransaction apiOk s tx) store, p.2)

/-- Substring test on character lists: does `needle` occur contiguously in
the second list? -/
def hasSubChars (needle : List Char) : List Char → Bool
  | [] => needle.isEmpty
  | c :: rest => needle.isPrefixOf (c :: rest) || hasSubChars needle rest

/-- Case-insensitive substring test:
`haystack.toLowerCase().includes(needle.toLowerCase())`, working on the
character lists of the two strings. -/
def strContainsCI (haystack needle : String) : Bool :=
  hasSubChars (needle.data.map Char.toLower) (haystack.data.map Char.toLower)

/-- The search predicate of the filter layer (lines 260-263 of
`ExpenseTracker.js`): case-insensitive substring match against
`description` or `category`. -/
def searchPred (term : String) (t : Transaction) : Bool :=
  strContainsCI t.description term || strContainsCI t.category term

/-- `isWithinInterval(date, {start: startOfWeek(now), end: endOfWeek(now)})`
at day granularity.  `startOfWeek` defaults to Sunday
(`weekStartsOn: 0`); 1970-01-01 was a Thursday, so Sunday-based
day-of-week is `(days + 4) mod 7`.  `endOfWeek` is the following Saturday
at end of day and `isWithinInterval` is inclusive. -/
def inWeekOf (now d : Date) : Bool :=
  let ws := now.days - Int.emod (now.days + 4) 7
  decide (ws ≤ d.days) && decide (d.days ≤ ws + 6)

/-- `isWithinInterval(date, {start: startOfMonth(now), end: endOfMonth(now)})`
at day granularity. -/
def inMonthOf (now d : Date) : Bool :=
  decide ((Date.days { now with day := 1 }) ≤ d.days) &&
  decide (d.days ≤ Date.days { now with day := daysInMonth now.year now.month })

/-- `isWithinInterval(date, {start: startOfYear(now), end: endOfYear(now)})`
at day granularity. -/
def inYearOf (now d : Date) : Bool :=
  decide ((Date.days ⟨now.year, 1, 1⟩) ≤ d.days) &&
  decide (d.days ≤ Date.days ⟨now.year, 12, 31⟩)

/-- The filter criteria of the Reports view: `searchTerm`, `filterType`
(`"all"`, `"income"` or `"expense"`), `filterCategory` (`"all"` or a
category name) and `dateRange` (`"all"`, `"today"`, `"week"`, `"month"`
or `"year"`), all kept as strings as in the source. -/
structure Criteria where
  searchTerm : String
  filterType : String
  filterCategory : String
  dateRange : String
deriving Repr

/-- The filtering stages of `filteredTransactions` (lines 255-301), before
the final sort.  Each stage mirrors a guarded `filtered = filtered.filter`
of the source; the `dateRange` switch has cases for `today`, `week`,
`month` and `year`, and leaves the list unchanged for `"all"` (which
skips the switch) and for any unknown value (the `default` branch). -/
def applyFilters (now : Date) (c : Criteria) (ts : List Transaction) :
    List Transaction :=
  let f1 := if c.searchTerm ≠ "" then ts.filter (searchPred c.searchTerm) else ts
  let f2 := if c.filterType ≠ "all"
    then f1.filter (fun t => t.type == c.filterType) else f1
  let f3 := if c.filterCategory ≠ "all"
    then f2.filter (fun t => t.category == c.filterCategory) else f2
  match c.dateRange with
  | "today" => f3.filter (fun t => t.date == now)
  | "week" => f3.filter (fun t => inWeekOf now t.date)
  | "month" => f3.filter (fun t => inMonthOf now t.date)
  | "year" => f3.filter (fun t => inYearOf now t.date)
  | _ => f3

/-- The date-range predicate as a single per-transaction test, for stating
the conjunctive composition of the filters. -/
def dateRangeOk (now : Date) (range : String) (t : Transaction) : Bool :=
  match range with
  | "today" => t.date == now
  | "week" => inWeekOf now t.date
  | "month" => inMonthOf now t.date
  | "year" => inYearOf now t.date
  | _ => true

/-- The conjunction of the four filter predicates, with `""` (empty
search) and `"all"` acting as no-ops. -/
def matchesFilters (now : Date) (c : Criteria) (t : Transaction) : Bool :=
  (if c.searchTerm = "" then true else searchPred c.searchTerm t) &&
  ((if c.filterType = "all" then true else t.type == c.filterType) &&
   ((if c.filterCategory = "all" then true else t.category == c.filterCategory) &&
    dateRangeOk now c.dateRange t))

/-- Descending date order used by the final
`sort((a, b) => new Date(b.date) - new Date(a.date))`. -/
def dateDesc (a b : Transaction) : Prop :=
  b.date.days ≤ a.date.days

instance : DecidableRel dateDesc :=
  fun a b => Int.decLe (b.date.days) (a.date.days)

instance : IsTotal Transaction dateDesc :=
  ⟨fun a b => le_total (b.date.days) (a.date.days)⟩

instance : IsTrans Transaction dateDesc :=
  ⟨fun _ _ _ h1 h2 => le_trans h2 h1⟩

/-- `filteredTransactions` (lines 255-304): the four filtering stages
followed by the descending-date sort (ECMAScript `sort` is stable, hence
the stable `insertionSort`). -/
def filteredTransactions (now : Date) (c : Criteria) (ts : List Transaction) :
    List Transaction :=
  List.insertionSort dateDesc (applyFilters now c ts)

/-- `reduce((sum, t) => sum + t.amount, 0)`. -/
def sumAmounts (ts : List Transaction) : ℚ :=
  ts.foldl (fun s t => s + t.amount) 0

/-- The totals record of `filteredTotals` (`ExpenseTracker.js`
lines 333-347). -/
structure Totals where
  income : ℚ
  expense : ℚ
  balance : ℚ
deriving DecidableEq, Repr

/-- `filteredTotals`: income and expense are the sums of `amount` over the
entries of each type, and `balance` is computed as `income - expense`. -/
def filteredTotals (ts : List Transaction) : Totals :=
  let income := sumAmounts (ts.filter (fun t => t.type == "income"))
  let expense := sumAmounts (ts.filter (fun t => t.type == "expense"))
  { income := income, expense := expense, balance := income - expense }

/-- The totals record of `periodTotals` (`Reports.js` lines 44-59), which
also carries a savings percentage. -/
structure PeriodTotals where
  income : ℚ
  expense : ℚ
  balance : ℚ
  savings : ℚ
deriving DecidableEq, Repr

/-- `periodTotals`: as `filteredTotals`, plus
`savings = income > 0 ? (income - expense) / income * 100 : 0`. -/
def periodTotals (ts : List Transaction) : PeriodTotals :=
  let income := sumAmounts (ts.filter (fun t => t.type == "income"))
  let expense := sumAmounts (ts.filter (fun t => t.type == "expense"))
  { income := income
    expense := expense
    balance := income - expense
    savings := if 0 < income then (income - expense) / income * 100 else 0 }

/-! ### Concrete fixtures used by counterexamples and witnesses -/

/-- An active weekly template due on 2024-01-01. -/
def tmplWeekly : RecurringTemplate :=
  { id := 1, type := "expense", description := "Net", amount := 10,
    category := "Internet", frequency := .weekly, startDate := ⟨2024, 1, 1⟩,
    endDate := none, isActive := true, lastProcessed := none,
    nextDue := some ⟨2024, 1, 1⟩, createdAt := "" }

/-- An active monthly template due on 2024-01-01. -/
def tmplMonthly : RecurringTemplate :=
  { id := 2, type := "expense", description := "Rent", amount := 900,
    category := "Rent", frequency := .monthly, startDate := ⟨2024, 1, 1⟩,
    endDate := none, isActive := true, lastProcessed := none,
    nextDue := some ⟨2024, 1, 1⟩, createdAt := "" }

/-- A paused (`isActive = false`) template, long overdue. -/
def tmplPaused : RecurringTemplate :=
  { id := 7, type := "expense", description := "Gym", amount := 30,
    category := "Subscription", frequency := .monthly,
    startDate := ⟨2023, 1, 1⟩, endDate := none, isActive := false,
    lastProcessed := none, nextDue := some ⟨2023, 1, 1⟩, createdAt := "" }

/-- An entry dated 2024-01-15 (the spec's `today` example). -/
def entryJan15 : Transaction :=
  { id := 1, type := "expense", description := "lunch", amount := 5,
    category := "Food", date := ⟨2024, 1, 15⟩, isRecurring := false,
    recurringId := none }

/-- An entry dated 2024-01-16. -/
def entryJan16 : Transaction :=
  { id := 2, type := "expense", description := "dinner", amount := 6,
    category := "Food", date := ⟨2024, 1, 16⟩, isRecurring := false,
    recurringId := none }

/-- An income entry, for the totals witness. -/
def entrySalary : Transaction :=
  { id := 3, type := "income", description := "salary", amount := 100,
    category := "Salary", date := ⟨2024, 1, 15⟩, isRecurring := false,
    recurringId := none }

/-- The Reports criteria with only the `today` date range active. -/
def todayCriteria : Criteria :=
  { searchTerm := "", filterType := "all", filterCategory := "all",
    dateRange := "today" }

/-! ### Helper lemmas -/

/-- The weekly months argument is the source's literal `0.25`. -/
theorem monthsArg_weekly_eq : monthsArg .weekly = 1 / 4 := by
  apply Rat.ext <;> norm_num [monthsArg]

/-- What `addMonths` does to each frequency's argument: one, three and
twelve whole months, and nothing at all for weekly, whose `0.25` is
truncated to zero. -/
theorem addMonthsJS_monthsArg (d : Date) (f : Frequency) :
    addMonthsJS d (monthsArg f) =
      match f with
      | .weekly => d
      | .monthly => addMonthsInt d 1
      | .quarterly => addMonthsInt d 3
      | .yearly => addMonthsInt d 12 := by
  cases f
  · have h : ratTrunc (monthsArg .weekly) = 0 := by decide
    simp [addMonthsJS, h]
  · have h : ratTrunc (monthsArg .monthly) = 1 := by decide
    simp [addMonthsJS, h]
  · have h : ratTrunc (monthsArg .quarterly) = 3 := by decide
    simp [addMonthsJS, h]
  · have h : ratTrunc (monthsArg .yearly) = 12 := by decide
    simp [addMonthsJS, h]

/-- A failed store write leaves the store unchanged however many
transactions are handed to it. -/
theorem foldl_handleSave_false (l : List Transaction) (s : List Transaction) :
    l.foldl (fun s tx => handleSaveTransaction false s tx) s = s := by
  induction l generalizing s with
  | nil => rfl
  | cons a l ih => simp [List.foldl_cons, handleSaveTransaction, ih]

/-- A template emits in a pass exactly when it is active and due. -/
theorem stepTemplate_fst (fresh : Nat) (today : Date)
    (r : RecurringTemplate) :
    (stepTemplate fresh today r).1 =
      if r.isActive && isDueOn today (dueOf r) then
        some (mkAutoTransaction fresh today r)
      else none := by
  cases hA : r.isActive <;> cases hD : isDueOn today (dueOf r) <;>
    simp [stepTemplate, hA, hD]

/-- The emissions of one scheduler pass are exactly one `(Auto)`
transaction per active template that is due. -/
theorem processPass_fst (fresh : Nat) (today : Date)
    (ts : List RecurringTemplate) :
    (processPass fresh today ts).1 =
      (ts.filter (fun r => r.isActive && isDueOn today (dueOf r))).map
        (mkAutoTransaction fresh today) := by
  have hfun : (fun r => (stepTemplate fresh today r).1) =
      (fun r => if r.isActive && isDueOn today (dueOf r) then
        some (mkAutoTransaction fresh today r) else none) :=
    funext (stepTemplate_fst fresh today)
  show ts.filterMap (fun r => (stepTemplate fresh today r).1) = _
  rw [hfun]
  induction ts with
  | nil => rfl
  | cons r l ih =>
    rw [List.filterMap_cons, List.filter_cons, ih]
    cases h : (r.isActive && isDueOn today (dueOf r)) <;> simp [h]

/-- Folding amounts from zero is the sum of the mapped amounts. -/
theorem foldl_add_amount (l : List Transaction) (init : ℚ) :
    l.foldl (fun s t => s + t.amount) init =
      init + (l.map (fun t => t.amount)).sum := by
  induction l generalizing init with
  | nil => simp
  | cons a l ih => simp [List.foldl_cons, ih, add_assoc]

/-- `sumAmounts` is the arithmetic sum of the amounts. -/
theorem sumAmounts_eq_sum (l : List Transaction) :
    sumAmounts l = (l.map (fun t => t.amount)).sum := by
  simp [sumAmounts, foldl_add_amount]

/-! ### Claims -/

/-- C1: evaluating the scheduler pass at a concrete weekly template that
is due (nextDue = 2024-01-01, evaluated on 2024-01-01): the pass does emit
a transaction, yet `nextDue` stays 2024-01-01 instead of advancing to
2024-01-08, because `addMonths(nextDue, 0.25)` truncates its fractional
amount to zero whole months.  This contradicts the claimed `+7 days` (and
the `days: 7` entry of the source's own `FREQUENCIES` table). -/
theorem claim_C1_weekly_no_advance :
    (stepTemplate 0 ⟨2024, 1, 1⟩ tmplWeekly).1.isSome = true ∧
    tmplWeekly.frequency = .weekly ∧
    tmplWeekly.nextDue = some ⟨2024, 1, 1⟩ ∧
    (stepTemplate 0 ⟨2024, 1, 1⟩ tmplWeekly).2.nextDue = some ⟨2024, 1, 1⟩ ∧
    (⟨2024, 1, 1⟩ : Date) ≠ ⟨2024, 1, 8⟩ := by
  decide

/-- C2 (amended): the scheduler's template updates are independent of the
Entry Store write outcome: when every write fails the store is unchanged,
but the updated template collection is exactly the one produced when every
write succeeds — `nextDue` and `lastProcessed` advance regardless, so a
failed emission is never retried. -/
theorem claim_C2_advance_independent_of_write (fresh : Nat) (today : Date)
    (store : List Transaction) (ts : List RecurringTemplate) :
    (schedulerTick false fresh today store ts).1 = store ∧
    (schedulerTick false fresh today store ts).2 =
      (schedulerTick true fresh today store ts).2 := by
  exact ⟨foldl_handleSave_false (processPass fresh today ts).1 store, rfl⟩

/-- C2 counterexample: a due monthly template processed while the store
write fails: the store stays empty, yet the template does not keep its
prior `nextDue` of 2024-01-01 — it advances to 2024-02-01, contradicting
the claim that the fields are left unchanged on emission failure. -/
theorem claim_C2_counterexample :
    (schedulerTick false 0 ⟨2024, 1, 1⟩ [] [tmplMonthly]).1 = [] ∧
    tmplMonthly.nextDue = some ⟨2024, 1, 1⟩ ∧
    (schedulerTick false 0 ⟨2024, 1, 1⟩ [] [tmplMonthly]).2.map
      (fun t => t.nextDue) = [some ⟨2024, 2, 1⟩] ∧
    (schedulerTick false 0 ⟨2024, 1, 1⟩ [] [tmplMonthly]).2 ≠ [tmplMonthly] := by
  decide

/-- C9: for every non-empty entry collection, `balance` equals
`income - expense` exactly, where income and expense are the arithmetic
sums of `amount` over the entries of the matching type; the same holds for
the Reports-tab `periodTotals`. -/
theorem claim_C9_balance (ts : List Transaction) (h : ts ≠ []) :
    (filteredTotals ts).balance =
      (filteredTotals ts).income - (filteredTotals ts).expense ∧
    (filteredTotals ts).income =
      ((ts.filter (fun t => t.type == "income")).map (fun t => t.amount)).sum ∧
    (filteredTotals ts).expense =
      ((ts.filter (fun t => t.type == "expense")).map (fun t => t.amount)).sum ∧
    (periodTotals ts).balance =
      (periodTotals ts).income - (periodTotals ts).expense ∧
    (periodTotals ts).income = (filteredTotals ts).income ∧
    (periodTotals ts).expense = (filteredTotals ts).expense := by
  refine ⟨rfl, ?_, ?_, rfl, rfl, rfl⟩ <;>
    simp [filteredTotals, sumAmounts_eq_sum]

/-- C9 witness at a concrete two-entry collection. -/
theorem claim_C9_witness :
    (filteredTotals [entrySalary, entryJan15]).balance =
      (filteredTotals [entrySalary, entryJan15]).income -
        (filteredTotals [entrySalary, entryJan15]).expense :=
  (claim_C9_balance [entrySalary, entryJan15] (by decide)).1

/-- C10: toggling a present id twice restores the collection, and one
toggle is the per-element `toggleOne`, which flips `isActive` of the
templates with the given id and changes nothing else — every other field
of every template is preserved. -/
theorem claim_C10_toggle (ts : List RecurringTemplate) (i : Nat)
    (h : i ∈ ts.map (fun t => t.id)) :
    toggleActive i (toggleActive i ts) = ts ∧
    toggleActive i ts = ts.map (toggleOne i) ∧
    ∀ t : RecurringTemplate,
      (toggleOne i t).id = t.id ∧
      (toggleOne i t).type = t.type ∧
      (toggleOne i t).description = t.description ∧
      (toggleOne i t).amount = t.amount ∧
      (toggleOne i t).category = t.category ∧
      (toggleOne i t).frequency = t.frequency ∧
      (toggleOne i t).startDate = t.startDate ∧
      (toggleOne i t).endDate = t.endDate ∧
      (toggleOne i t).lastProcessed = t.lastProcessed ∧
      (toggleOne i t).nextDue = t.nextDue ∧
      (toggleOne i t).createdAt = t.createdAt ∧
      (toggleOne i t).isActive =
        (if t.id = i then !t.isActive else t.isActive) := by
  have hinv : ∀ t, toggleOne i (toggleOne i t) = t := by
    intro t
    by_cases ht : t.id = i
    · have hb : (t.id == i) = true := by simp [ht]
      cases t
      simp_all [toggleOne]
    · have hb : (t.id == i) = false := by simp [ht]
      simp [toggleOne, hb]
  refine ⟨?_, rfl, ?_⟩
  · show (ts.map (toggleOne i)).map (toggleOne i) = ts
    rw [List.map_map]
    rw [show (toggleOne i ∘ toggleOne i) = id from funext hinv]
    exact List.map_id ts
  · intro t
    by_cases ht : t.id = i <;> simp [toggleOne, ht]

/-- C10 witness: toggling id 7 twice on a concrete two-template
collection restores it. -/
theorem claim_C10_witness :
    toggleActive 7 (toggleActive 7 [tmplMonthly, tmplPaused]) =
      [tmplMonthly, tmplPaused] :=
  (claim_C10_toggle [tmplMonthly, tmplPaused] 7 (by decide)).1

/-- C3 (amended): the scheduled pass never emits for a paused template —
its emissions are exactly one `(Auto)` transaction per active due
template — but `processNow` has no `isActive` guard: whenever the id is
found, it emits a `(Manual)` transaction for that template whatever its
`isActive` flag. -/
theorem claim_C3_paused (fresh : Nat) (today now : Date)
    (ts ts2 : List RecurringTemplate) (i : Nat) (r : RecurringTemplate) :
    ((processPass fresh today ts).1 =
      (ts.filter (fun t => t.isActive && isDueOn today (dueOf t))).map
        (mkAutoTransaction fresh today)) ∧
    (ts2.find? (fun t => t.id == i) = some r →
      (processNow fresh now i ts2).1 = some (mkManualTransaction fresh now r)) := by
  refine ⟨processPass_fst fresh today ts, ?_⟩
  intro hfind
  simp [processNow, hfind]

/-- C3 witness: the pass on a paused template emits nothing, while
`processNow` on the very same paused template does emit. -/
theorem claim_C3_witness :
    (processPass 0 ⟨2024, 1, 1⟩ [tmplPaused]).1 = [] ∧
    (processNow 0 ⟨2024, 1, 1⟩ 7 [tmplPaused]).1 =
      some (mkManualTransaction 0 ⟨2024, 1, 1⟩ tmplPaused) := by
  have H := claim_C3_paused 0 ⟨2024, 1, 1⟩ ⟨2024, 1, 1⟩ [tmplPaused]
    [tmplPaused] 7 tmplPaused
  exact ⟨H.1.trans (by decide), H.2 (by decide)⟩

/-- C3 counterexample: `tmplPaused` has `isActive = false`, yet
`processNow` emits a transaction whose `recurringId` references it,
contradicting the claim that no operation emits from a paused template. -/
theorem claim_C3_counterexample :
    tmplPaused.isActive = false ∧
    ((processNow 0 ⟨2024, 1, 1⟩ 7 [tmplPaused]).1).map
      (fun tx => tx.recurringId) = some (some 7) := by
  decide

/-- C4 (amended): the scheduled pass anchors the new `nextDue` at the
previous due date — advancing one, three or twelve calendar months for
monthly, quarterly and yearly, and not at all for weekly — while
`processNow` anchors at `now` instead: every template carrying the
processed id receives `nextDue = now` plus the found template's truncated
period. -/
theorem claim_C4_anchoring (fresh : Nat) (today now : Date)
    (r : RecurringTemplate) (ts : List RecurringTemplate) (i : Nat)
    (r2 : RecurringTemplate) :
    (r.isActive = true → isDueOn today (dueOf r) = true →
      (stepTemplate fresh today r).2.nextDue =
        some (match r.frequency with
              | .weekly => dueOf r
              | .monthly => addMonthsInt (dueOf r) 1
              | .quarterly => addMonthsInt (dueOf r) 3
              | .yearly => addMonthsInt (dueOf r) 12)) ∧
    (ts.find? (fun t => t.id == i) = some r2 →
      (processNow fresh now i ts).2 = ts.map (fun t =>
        if t.id == i then
          { t with
              lastProcessed := some now
              nextDue := some (match r2.frequency with
                | .weekly => now
                | .monthly => addMonthsInt now 1
                | .quarterly => addMonthsInt now 3
                | .yearly => addMonthsInt now 12) }
        else t)) := by
  constructor
  · intro hA hD
    simp [stepTemplate, hA, hD, addMonthsJS_monthsArg]
  · intro hfind
    simp [processNow, hfind, addMonthsJS_monthsArg]

/-- C4 witness: the pass advances the due monthly template from its
previous due 2024-01-01 to 2024-02-01; `processNow` on 2024-03-15 sets
`nextDue` to 2024-04-15, one month after `now`. -/
theorem claim_C4_witness :
    (stepTemplate 0 ⟨2024, 1, 1⟩ tmplMonthly).2.nextDue = some ⟨2024, 2, 1⟩ ∧
    (processNow 0 ⟨2024, 3, 15⟩ 2 [tmplMonthly]).2.map (fun t => t.nextDue) =
      [some ⟨2024, 4, 15⟩] := by
  have H := claim_C4_anchoring 0 ⟨2024, 1, 1⟩ ⟨2024, 3, 15⟩ tmplMonthly
    [tmplMonthly] 2 tmplMonthly
  refine ⟨(H.1 (by decide) (by decide)).trans (by decide), ?_⟩
  rw [H.2 (by decide)]
  decide

/-- C4 counterexample: `processNow` on 2024-03-15 for the monthly template
whose previous due is 2024-01-01 sets `nextDue = 2024-04-15` (now plus one
month), not the claimed previous-due-plus-one-period 2024-02-01. -/
theorem claim_C4_counterexample :
    tmplMonthly.nextDue = some ⟨2024, 1, 1⟩ ∧
    addMonthsInt (dueOf tmplMonthly) 1 = ⟨2024, 2, 1⟩ ∧
    (processNow 0 ⟨2024, 3, 15⟩ 2 [tmplMonthly]).2.map (fun t => t.nextDue) =
      [some ⟨2024, 4, 15⟩] ∧
    (⟨2024, 4, 15⟩ : Date) ≠ ⟨2024, 2, 1⟩ := by
  decide

/-- C5 (amended): a second pass at the same evaluation instant emits
nothing further — so the two passes together emit exactly one transaction
per due active template — provided every due active template's advanced
`nextDue` is no longer due at that instant.  (A template overdue by more
than one period, or any weekly template, whose `nextDue` does not advance,
violates the proviso and emits again on the second pass.) -/
theorem claim_C5_idempotence (f1 f2 : Nat) (today : Date)
    (ts : List RecurringTemplate)
    (h : ∀ r ∈ ts, r.isActive = true → isDueOn today (dueOf r) = true →
      isDueOn today (addMonthsJS (dueOf r) (monthsArg r.frequency)) = false) :
    (processPass f2 today (processPass f1 today ts).2).1 = [] ∧
    (processPass f1 today ts).1.length =
      (ts.filter (fun r => r.isActive && isDueOn today (dueOf r))).length := by
  constructor
  · rw [processPass_fst]
    have hnil : (processPass f1 today ts).2.filter
        (fun r => r.isActive && isDueOn today (dueOf r)) = [] := by
      rw [List.filter_eq_nil_iff]
      intro x hx
      obtain ⟨r, hr, rfl⟩ := List.mem_map.mp hx
      by_cases hA : r.isActive = true
      · by_cases hD : isDueOn today (dueOf r) = true
        · have hstep : (stepTemplate f1 today r).2 =
              { r with
                  lastProcessed := some today
                  nextDue := some (addMonthsJS (dueOf r) (monthsArg r.frequency)) } := by
            simp [stepTemplate, hA, hD]
          rw [hstep]
          simp only [Bool.and_eq_true, not_and, Bool.not_eq_true]
          intro _
          exact h r hr hA hD
        · have hstep : (stepTemplate f1 today r).2 = r := by
            simp [stepTemplate, hA, hD]
          rw [hstep]
          simp [hD]
      · have hstep : (stepTemplate f1 today r).2 = r := by
          simp [stepTemplate, hA]
        rw [hstep]
        simp [hA]
    rw [hnil]
    rfl
  · rw [processPass_fst, List.length_map]

/-- C5 witness: a monthly template due exactly today — the advanced
`nextDue` lands one month ahead, the second pass emits nothing, and the
two passes emit one transaction in total. -/
theorem claim_C5_witness :
    (processPass 1 ⟨2024, 1, 1⟩ (processPass 0 ⟨2024, 1, 1⟩ [tmplMonthly]).2).1 = [] ∧
    (processPass 0 ⟨2024, 1, 1⟩ [tmplMonthly]).1.length = 1 := by
  have H := claim_C5_idempotence 0 1 ⟨2024, 1, 1⟩ [tmplMonthly] (by decide)
  exact ⟨H.1, H.2.trans (by decide)⟩

/-- C5 counterexample: a monthly template overdue by several periods
(`nextDue = 2024-01-01`, evaluated on 2024-06-15): there is exactly one
due active template, yet two passes at the same instant emit two
transactions, contradicting the claimed exactly-one-per-due-template. -/
theorem claim_C5_counterexample :
    ([tmplMonthly].filter
      (fun r => r.isActive && isDueOn ⟨2024, 6, 15⟩ (dueOf r))).length = 1 ∧
    (processPass 0 ⟨2024, 6, 15⟩ [tmplMonthly]).1.length +
      (processPass 1 ⟨2024, 6, 15⟩
        (processPass 0 ⟨2024, 6, 15⟩ [tmplMonthly]).2).1.length = 2 := by
  decide

/-- Any date-range string other than the four recognised ones (including
`"all"`, which skips the switch in the source) filters nothing. -/
theorem dateRangeOk_other (now : Date) (s : String) (t : Transaction)
    (h1 : s ≠ "today") (h2 : s ≠ "week") (h3 : s ≠ "month") (h4 : s ≠ "year") :
    dateRangeOk now s t = true := by
  unfold dateRangeOk
  split <;> simp_all

/-- The four sequential filter stages of the source equal one filter by
the conjunction of the four predicates. -/
theorem applyFilters_eq (now : Date) (c : Criteria) (ts : List Transaction) :
    applyFilters now c ts = ts.filter (matchesFilters now c) := by
  have h1 : (if c.searchTerm ≠ "" then ts.filter (searchPred c.searchTerm) else ts)
      = ts.filter (fun t => if c.searchTerm = "" then true else searchPred c.searchTerm t) := by
    by_cases hs : c.searchTerm = "" <;> simp [hs]
  have h2 : ∀ l : List Transaction,
      (if c.filterType ≠ "all" then l.filter (fun t => t.type == c.filterType) else l)
      = l.filter (fun t => if c.filterType = "all" then true else t.type == c.filterType) := by
    intro l; by_cases ht : c.filterType = "all" <;> simp [ht]
  have h3 : ∀ l : List Transaction,
      (if c.filterCategory ≠ "all" then l.filter (fun t => t.category == c.filterCategory) else l)
      = l.filter (fun t => if c.filterCategory = "all" then true else t.category == c.filterCategory) := by
    intro l; by_cases hc : c.filterCategory = "all" <;> simp [hc]
  unfold applyFilters
  rw [h1]
  dsimp only
  rw [h2, h3]
  split
  · next heq =>
      simp only [List.filter_filter]
      refine List.filter_congr (fun a _ => ?_)
      simp [matchesFilters, dateRangeOk, heq, Bool.and_assoc, Bool.and_comm,
        Bool.and_left_comm]
  · next heq =>
      simp only [List.filter_filter]
      refine List.filter_congr (fun a _ => ?_)
      simp [matchesFilters, dateRangeOk, heq, Bool.and_assoc, Bool.and_comm,
        Bool.and_left_comm]
  · next heq =>
      simp only [List.filter_filter]
      refine List.filter_congr (fun a _ => ?_)
      simp [matchesFilters, dateRangeOk, heq, Bool.and_assoc, Bool.and_comm,
        Bool.and_left_comm]
  · next heq =>
      simp only [List.filter_filter]
      refine List.filter_congr (fun a _ => ?_)
      simp [matchesFilters, dateRangeOk, heq, Bool.and_assoc, Bool.and_comm,
        Bool.and_left_comm]
  · next hn1 hn2 hn3 hn4 =>
      simp only [List.filter_filter]
      refine List.filter_congr (fun a _ => ?_)
      simp [matchesFilters, dateRangeOk_other now c.dateRange a hn1 hn2 hn3 hn4,
        Bool.and_assoc, Bool.and_comm, Bool.and_left_comm]

/-- C6: filtering with the `today` date range (and all other filters at
their no-op values) keeps exactly the entries whose date equals the
evaluation day; in particular, of the entries dated 2024-01-15 and
2024-01-16, filtering on evaluation day 2024-01-15 keeps only the
first. -/
theorem claim_C6_today (now : Date) (ts : List Transaction) :
    (∀ t : Transaction, t ∈ filteredTransactions now todayCriteria ts ↔
      (t ∈ ts ∧ t.date = now)) ∧
    filteredTransactions ⟨2024, 1, 15⟩ todayCriteria [entryJan15, entryJan16] =
      [entryJan15] := by
  constructor
  · intro t
    have hperm : (filteredTransactions now todayCriteria ts).Perm
        (ts.filter (matchesFilters now todayCriteria)) := by
      rw [filteredTransactions, applyFilters_eq]
      exact List.perm_insertionSort dateDesc _
    rw [hperm.mem_iff, List.mem_filter]
    simp [matchesFilters, todayCriteria, dateRangeOk]
  · decide

/-- C7: the filter layer returns exactly the entries satisfying the
conjunction of the four predicates — as a permutation of the one-pass
filter by `matchesFilters`, with membership characterised accordingly —
and the result is sorted by date descending. -/
theorem claim_C7_conjunctive (now : Date) (c : Criteria)
    (ts : List Transaction) :
    (filteredTransactions now c ts).Perm (ts.filter (matchesFilters now c)) ∧
    List.Sorted dateDesc (filteredTransactions now c ts) ∧
    (∀ t : Transaction, t ∈ filteredTransactions now c ts ↔
      (t ∈ ts ∧ matchesFilters now c t = true)) := by
  have hperm : (filteredTransactions now c ts).Perm
      (ts.filter (matchesFilters now c)) := by
    rw [filteredTransactions, applyFilters_eq]
    exact List.perm_insertionSort dateDesc _
  refine ⟨hperm, ?_, ?_⟩
  · exact List.sorted_insertionSort dateDesc _
  · intro t
    rw [hperm.mem_iff, List.mem_filter]

/-- C8: `upcomingTransactions` contains only active templates, is sorted
by `nextDue` ascending, and has at most five elements (the source's
hard-coded `limit`). -/
theorem claim_C8_upcoming (ts : List RecurringTemplate) :
    ((upcomingTransactions ts).all (fun t => t.isActive)) = true ∧
    List.Sorted nextDueAsc (upcomingTransactions ts) ∧
    (upcomingTransactions ts).length ≤ 5 := by
  refine ⟨?_, ?_, ?_⟩
  · rw [List.all_eq_true]
    intro t ht
    have h1 : t ∈ List.insertionSort nextDueAsc
        ((activeRecurring ts).filter (fun t => t.nextDue.isSome)) :=
      List.take_subset 5 _ ht
    have h2 := (List.perm_insertionSort nextDueAsc _).mem_iff.mp h1
    have h3 := (List.mem_filter.mp h2).1
    exact (List.mem_filter.mp h3).2
  · exact List.Pairwise.sublist (List.take_sublist 5 _)
      (List.sorted_insertionSort nextDueAsc _)
  · rw [upcomingTransactions, List.length_take]
    exact min_le_left 5 _
